import Mathlib

/-!
Verification of the FBS plugin resilience layer
(`src/engine/plugins/fbs/fbs.js`): the online/offline health monitor
(`checkOnlineState`), the offline-fallback branches of the `fbs.checkout`
and `fbs.checkin` bus handlers, the correlation-event naming scheme, and
the per-operation observability emissions of the `FBS` facade methods.

The JavaScript is event driven; the embedding makes the environment
explicit: each health-monitor poll is driven by a `PollOutcome` input
describing which branch of `checkOnlineState` the environment selects,
and each bus handler is a pure function from its (preprocessed) request
payload and the facade failure to the list of bus actions it performs.
-/

namespace FbsPlugin

/-! ## Health monitor: data model -/

/--
The `onlineState` record of the plugin (`fbs.js` lines 322-329).
Timeouts are milliseconds.
-/
structure OnlineState where
  online : Bool
  threshold : Nat
  successfulOnlineChecks : Nat
  onlineTimeout : Nat
  offlineTimeout : Nat
  ensureOnlineCheckTimeout : Nat
deriving DecidableEq

/--
The literal initial value of `onlineState` in the module scope of the
plugin: online with the success counter already at the threshold.
-/
def initialOnlineState : OnlineState :=
  { online := true
    threshold := 5
    successfulOnlineChecks := 5
    onlineTimeout := 5000
    offlineTimeout := 30000
    ensureOnlineCheckTimeout := 300000 }

/--
The `libraryStatus` response fields consulted by `checkOnlineState`:
the code tests `Object.prototype.hasOwnProperty.call(res, 'onlineState')`
and then reads `res.onlineStatus`.
-/
structure LibraryStatusRes where
  hasOnlineStateProp : Bool
  onlineStatus : Bool
deriving DecidableEq

/--
The branches of one `checkOnlineState` poll as written in the source:
`createFailed` is the rejection handler of `FBS.create(bus)`
(lines 414-419); `configMissing` is the else branch of the line-363
test `fbs.config && hasOwnProperty(fbs, 'endpoint')` (lines 403-412);
`statusFailed` and `statusOk res` are the two continuations of
`fbs.libraryStatus()` (lines 392-401 and 365-391).  The two status
branches are written in the source but unreachable: the line-363 test
checks own properties of the FBS instance, which are exactly `bus` and
`config` (constructor, lines 25-28), so it is false for every
instance — see `endpointGuard`, `actualPollOutcome` and
`endpointGuard_false` below.  The same reasoning applies to the
config-refresh ternaries of lines 358-360, guarded on
`hasOwnProperty(fbs, 'onlineState')`: they never fire, so thresholds
and timeouts are unchanged by a poll.  `checkOnlineStepReal` gives the
semantics of a real poll; `checkOnlineStep` states what each written
branch does.
-/
inductive PollOutcome
  | createFailed
  | configMissing
  | statusFailed
  | statusOk (res : LibraryStatusRes)
deriving DecidableEq

/-- Result of one poll: the mutated state, the delay passed to
`setTimeout` for the next primary poll, and the published bus signal
(`some true` is `fbs.online`, `some false` is `fbs.offline`, `none` is
no emission). -/
structure StepResult where
  state : OnlineState
  nextDelay : Nat
  published : Option Bool
deriving DecidableEq

/--
The transition of each written branch of `checkOnlineState`
(lines 353-419).  On `createFailed` the code only logs and schedules a
retry after `offlineTimeout`; on `configMissing` and `statusFailed` it
forces offline, resets the counter and publishes `fbs.offline`; the
status branch (unreachable, see `PollOutcome`) would count the poll as
successful exactly when the response has the `onlineState` own
property and a truthy `onlineStatus`, going online only when the
counter has already reached the threshold.  Which branch a real poll
takes is `actualPollOutcome`.
-/
def checkOnlineStep (o : PollOutcome) (s : OnlineState) : StepResult :=
  match o with
  | .createFailed => ⟨s, s.offlineTimeout, none⟩
  | .configMissing =>
      ⟨{ s with online := false, successfulOnlineChecks := 0 }, s.offlineTimeout, some false⟩
  | .statusFailed =>
      ⟨{ s with online := false, successfulOnlineChecks := 0 }, s.offlineTimeout, some false⟩
  | .statusOk res =>
      if res.hasOnlineStateProp && res.onlineStatus then
        if s.threshold ≤ s.successfulOnlineChecks then
          ⟨{ s with online := true }, s.onlineTimeout, some true⟩
        else
          ⟨{ s with online := false,
                    successfulOnlineChecks := s.successfulOnlineChecks + 1 },
            s.offlineTimeout, some false⟩
      else
        ⟨{ s with online := false, successfulOnlineChecks := 0 }, s.offlineTimeout, some false⟩

/-- The health-monitor state right after an offline excursion: signal
offline and success counter reset to 0. -/
def offlineStart : OnlineState :=
  { initialOnlineState with online := false, successfulOnlineChecks := 0 }

/-- A facade failure as observed by the callbacks and the bus handlers
(`err.message`). -/
structure FbsError where
  message : String
deriving DecidableEq

/-- The configuration object resolved by the config responder; the
monitor consults none of its fields, because the line-363 endpoint
test fails on the instance first. -/
structure FBSConfig where
  endpoint : Option String

/-- An FBS instance as built by the constructor (lines 25-28): it
holds the resolved configuration (`none` models a falsy config value).
Its own properties are exactly `bus` and `config`. -/
structure FBSInstance where
  config : Option FBSConfig

/-- `Object.prototype.hasOwnProperty.call(fbs, p)` for an instance
built by the FBS constructor: the constructor assigns exactly
`this.bus` and `this.config`, so only those names are own
properties. -/
def fbsInstanceHasOwnProperty (_ : FBSInstance) (p : String) : Bool :=
  p == "bus" || p == "config"

/-- The line-363 test
`fbs.config && Object.prototype.hasOwnProperty.call(fbs, 'endpoint')`. -/
def endpointGuard (fbs : FBSInstance) : Bool :=
  fbs.config.isSome && fbsInstanceHasOwnProperty fbs "endpoint"

/-- Environment input to one real poll: either the configuration fetch
of `FBS.create` rejects, or it resolves with a config value; `res` is
the answer the transport would give if `libraryStatus` were called. -/
inductive PollInput
  | createFailed
  | createOk (config : Option FBSConfig) (res : Except FbsError LibraryStatusRes)

/-- The branch of `checkOnlineState` selected for a poll input: the
endpoint test is evaluated on the constructed instance, and only if it
passed would the transport be consulted. -/
def actualPollOutcome : PollInput → PollOutcome
  | .createFailed => .createFailed
  | .createOk cfg res =>
      if endpointGuard { config := cfg } then
        match res with
        | .error _ => .statusFailed
        | .ok r => .statusOk r
      else
        .configMissing

/-- One real poll of the health monitor. -/
def checkOnlineStepReal (i : PollInput) (s : OnlineState) : StepResult :=
  checkOnlineStep (actualPollOutcome i) s

/-- Run a sequence of real polls from a given state. -/
def runPollsReal (s : OnlineState) : List PollInput → OnlineState
  | [] => s
  | i :: rest => runPollsReal (checkOnlineStepReal i s).state rest

/-- A poll input on which creation resolves with a configuration
carrying an endpoint and the transport stands ready to answer that the
library is online: the most favourable environment for going online. -/
def readyOnlinePoll : PollInput :=
  .createOk (some { endpoint := some "https://fbs.example" })
    (.ok { hasOnlineStateProp := true, onlineStatus := true })

/-! ## Health monitor: the endpoint test is dead, the monitor never
polls the transport -/

/-- The endpoint test fails for every FBS instance: `endpoint` is not
among the own properties assigned by the constructor. -/
theorem endpointGuard_false (fbs : FBSInstance) : endpointGuard fbs = false := by
  have h : fbsInstanceHasOwnProperty fbs "endpoint" = false := rfl
  unfold endpointGuard
  rw [h, Bool.and_false]

/-- Every resolved creation takes the not-configured branch:
`libraryStatus` is never called from the monitor. -/
theorem actualPollOutcome_createOk (cfg : Option FBSConfig)
    (res : Except FbsError LibraryStatusRes) :
    actualPollOutcome (PollInput.createOk cfg res) = PollOutcome.configMissing := by
  simp only [actualPollOutcome]
  rw [endpointGuard_false]
  simp

/-- The effect of a real resolved poll: force offline, reset the
counter, publish offline, reschedule after `offlineTimeout`. -/
theorem checkOnlineStepReal_createOk (cfg : Option FBSConfig)
    (res : Except FbsError LibraryStatusRes) (s : OnlineState) :
    checkOnlineStepReal (PollInput.createOk cfg res) s =
      ⟨{ s with online := false, successfulOnlineChecks := 0 },
        s.offlineTimeout, some false⟩ := by
  unfold checkOnlineStepReal
  rw [actualPollOutcome_createOk]
  rfl

/-- The post-excursion state is a fixed point of every real poll
sequence: the monitor can never leave the offline state again. -/
theorem runPollsReal_offlineStart (l : List PollInput) :
    runPollsReal offlineStart l = offlineStart := by
  induction l with
  | nil => rfl
  | cons i rest ih =>
      have hstep : (checkOnlineStepReal i offlineStart).state = offlineStart := by
        cases i with
        | createFailed => rfl
        | createOk cfg res =>
            rw [checkOnlineStepReal_createOk]
            decide
      show runPollsReal (checkOnlineStepReal i offlineStart).state rest = offlineStart
      rw [hstep]
      exact ih

/-! ## Claim C2 -/

/--
C2 counterexample: with `threshold = 5`, starting from the offline
state with `successfulOnlineChecks = 0`, five consecutive polls in the
most favourable environment (creation resolves, configuration carries
an endpoint, transport ready to answer online) leave the published
signal offline with the counter still 0 — the signal does not flip on
the 5th poll, because the always-false line-363 endpoint test keeps
the monitor from ever calling `libraryStatus`.
-/
theorem c2_counterexample :
    (runPollsReal offlineStart (List.replicate 5 readyOnlinePoll)).online = false ∧
    (runPollsReal offlineStart
      (List.replicate 5 readyOnlinePoll)).successfulOnlineChecks = 0 ∧
    offlineStart.threshold = 5 := by
  decide

/--
C2 (amended): the line-363 endpoint test checks own properties of the
FBS instance and is false for every instance, so the monitor never
invokes `libraryStatus`; every poll on which the facade is constructed
takes the not-configured branch, forcing the signal offline with the
counter reset to 0 and the next poll scheduled after `offlineTimeout`;
no poll ever publishes online, and from the post-excursion offline
state every real poll sequence leaves the state unchanged — the signal
never flips to online on any poll.
-/
theorem c2_amended :
    (∀ fbs : FBSInstance, endpointGuard fbs = false) ∧
    (∀ (cfg : Option FBSConfig) (res : Except FbsError LibraryStatusRes)
        (s : OnlineState),
      actualPollOutcome (PollInput.createOk cfg res) = PollOutcome.configMissing ∧
      (checkOnlineStepReal (PollInput.createOk cfg res) s).state.online = false ∧
      (checkOnlineStepReal
        (PollInput.createOk cfg res) s).state.successfulOnlineChecks = 0 ∧
      (checkOnlineStepReal (PollInput.createOk cfg res) s).nextDelay
        = s.offlineTimeout) ∧
    (∀ (i : PollInput) (s : OnlineState),
      (checkOnlineStepReal i s).published = none ∨
      (checkOnlineStepReal i s).published = some false) ∧
    (∀ l : List PollInput, runPollsReal offlineStart l = offlineStart) := by
  refine ⟨endpointGuard_false, ?_, ?_, runPollsReal_offlineStart⟩
  · intro cfg res s
    refine ⟨actualPollOutcome_createOk cfg res, ?_, ?_, ?_⟩ <;>
      rw [checkOnlineStepReal_createOk]
  · intro i s
    cases i with
    | createFailed => exact Or.inl rfl
    | createOk cfg res =>
        rw [checkOnlineStepReal_createOk]
        exact Or.inr rfl

/-! ## Claim C3 -/

/--
C3 counterexample: a facade-construction-failure poll from the startup
state neither resets `successfulOnlineChecks` (it stays 5) nor
publishes offline, refuting the universal reset clause; and even the
most favourable resolved poll resets the counter to 0 and publishes
offline without `libraryStatus` ever being called, so no sequence of
polls can accumulate threshold consecutive successful polls — the
claimed precondition for the flag can never be established.
-/
theorem c3_counterexample :
    (checkOnlineStepReal PollInput.createFailed
      initialOnlineState).state.successfulOnlineChecks = 5 ∧
    (checkOnlineStepReal PollInput.createFailed initialOnlineState).published = none ∧
    (checkOnlineStepReal readyOnlinePoll offlineStart).state.successfulOnlineChecks
      = 0 ∧
    (checkOnlineStepReal readyOnlinePoll offlineStart).published = some false ∧
    offlineStart.threshold = 5 := by
  decide

/--
C3 (amended): no poll in which `libraryStatus` succeeds can occur —
every resolved creation takes the not-configured branch — so following
an offline excursion the published online flag is never true and the
threshold bound holds vacuously; every resolved poll resets
`successfulOnlineChecks` to 0, forces the flag off and publishes
offline, while a facade-construction-failure poll leaves the state
unchanged and publishes nothing.
-/
theorem c3_amended :
    (∀ (cfg : Option FBSConfig) (res : Except FbsError LibraryStatusRes)
        (s : OnlineState),
      (checkOnlineStepReal
        (PollInput.createOk cfg res) s).state.successfulOnlineChecks = 0 ∧
      (checkOnlineStepReal (PollInput.createOk cfg res) s).state.online = false ∧
      (checkOnlineStepReal (PollInput.createOk cfg res) s).published = some false) ∧
    (∀ s : OnlineState,
      (checkOnlineStepReal PollInput.createFailed s).state = s ∧
      (checkOnlineStepReal PollInput.createFailed s).published = none) ∧
    (∀ l : List PollInput, (runPollsReal offlineStart l).online = false) := by
  refine ⟨?_, ?_, ?_⟩
  · intro cfg res s
    refine ⟨?_, ?_, ?_⟩ <;> rw [checkOnlineStepReal_createOk]
  · intro s
    exact ⟨rfl, rfl⟩
  · intro l
    rw [runPollsReal_offlineStart]
    rfl

/-! ## Claim C5 -/

/--
C5 counterexample: a poll on which `FBS.create` rejects, taken from the
initial state, leaves the published state online with the counter at 5
and publishes nothing, contrary to the claim that such a poll forces
the state offline and resets the counter.
-/
theorem c5_counterexample :
    (checkOnlineStep PollOutcome.createFailed initialOnlineState).state.online = true ∧
    (checkOnlineStep PollOutcome.createFailed initialOnlineState).state.successfulOnlineChecks
      = 5 ∧
    (checkOnlineStep PollOutcome.createFailed initialOnlineState).published = none := by
  decide

/--
C5 (amended): a poll with no endpoint configured forces the state
offline, resets the counter, publishes offline and schedules the next
poll after `offlineTimeout`; a poll on which the facade cannot be
constructed leaves the state unchanged and publishes nothing but still
schedules a retry after `offlineTimeout`; and every branch of the poll
transition schedules a next poll (after `offlineTimeout` or
`onlineTimeout`), so no branch escapes the scheduling loop.
-/
theorem c5_amended : ∀ s : OnlineState,
    (checkOnlineStep PollOutcome.configMissing s).state.online = false ∧
    (checkOnlineStep PollOutcome.configMissing s).state.successfulOnlineChecks = 0 ∧
    (checkOnlineStep PollOutcome.configMissing s).nextDelay = s.offlineTimeout ∧
    (checkOnlineStep PollOutcome.configMissing s).published = some false ∧
    (checkOnlineStep PollOutcome.createFailed s).state = s ∧
    (checkOnlineStep PollOutcome.createFailed s).published = none ∧
    (checkOnlineStep PollOutcome.createFailed s).nextDelay = s.offlineTimeout ∧
    (∀ o : PollOutcome,
      (checkOnlineStep o s).nextDelay = s.offlineTimeout ∨
      (checkOnlineStep o s).nextDelay = s.onlineTimeout) := by
  intro s
  refine ⟨rfl, rfl, rfl, rfl, rfl, rfl, rfl, ?_⟩
  intro o
  cases o with
  | createFailed => exact Or.inl rfl
  | configMissing => exact Or.inl rfl
  | statusFailed => exact Or.inl rfl
  | statusOk res =>
      by_cases hres : (res.hasOnlineStateProp && res.onlineStatus) = true
      · by_cases hth : s.threshold ≤ s.successfulOnlineChecks
        · exact Or.inr (by simp [checkOnlineStep, hres, hth])
        · exact Or.inl (by simp [checkOnlineStep, hres, hth])
      · exact Or.inl (by simp [checkOnlineStep, hres])

/-! ## Claim C10 -/

/--
C10 counterexample: the very first completed poll, in the most
favourable environment, forces the state offline with the counter
reset to 0 and publishes offline — the initial online state does not
survive the first resolved poll, and no successful poll ever occurs
that could keep it online.
-/
theorem c10_counterexample :
    (checkOnlineStepReal readyOnlinePoll initialOnlineState).state.online = false ∧
    (checkOnlineStepReal readyOnlinePoll
      initialOnlineState).state.successfulOnlineChecks = 0 ∧
    (checkOnlineStepReal readyOnlinePoll initialOnlineState).published
      = some false := by
  decide

/--
C10 (amended): at plugin startup the shared `onlineState` is
initialized online with `successfulOnlineChecks = 5` already equal to
`threshold = 5`, so before any poll completes the system reports and
consults an online signal although no successful health check has
occurred; but no successful poll ever occurs — every first completed
poll on which the facade is constructed forces the state offline,
while a construction-failure poll leaves the initial online state in
place.
-/
theorem c10_initial_state :
    initialOnlineState.online = true ∧
    initialOnlineState.threshold = 5 ∧
    initialOnlineState.successfulOnlineChecks = 5 ∧
    initialOnlineState.successfulOnlineChecks = initialOnlineState.threshold ∧
    (∀ (cfg : Option FBSConfig) (res : Except FbsError LibraryStatusRes),
      (checkOnlineStepReal (PollInput.createOk cfg res) initialOnlineState).state.online
        = false) ∧
    (checkOnlineStepReal PollInput.createFailed initialOnlineState).state
      = initialOnlineState := by
  refine ⟨rfl, rfl, rfl, rfl, ?_, rfl⟩
  intro cfg res
  rw [checkOnlineStepReal_createOk]

/-! ## Offline fallback: data model -/

/-- The `fbs.checkout` request payload; `Option` marks fields the
caller may omit. -/
structure CheckoutData where
  username : String
  password : String
  itemIdentifier : String
  noBlockDueDate : Option Nat := none
  noBlock : Option Bool := none
  transactionDate : Option Nat := none
  checkedInDate : Option Nat := none
  queued : Option Bool := none
  busEvent : String
  errorEvent : String
deriving DecidableEq

/-- The `fbs.checkin` request payload. -/
structure CheckinData where
  itemIdentifier : String
  checkedInDate : Option Nat := none
  noBlock : Option Bool := none
  queued : Option Bool := none
  transaction : Option String := none
  busEvent : String
  errorEvent : String
deriving DecidableEq

/-- JavaScript `x || dflt` on an optional number: absent and 0 are both
falsy. -/
def orDefaultNat (x : Option Nat) (dflt : Nat) : Nat :=
  match x with
  | some v => if v = 0 then dflt else v
  | none => dflt

/--
The preprocessing at the top of the `fbs.checkout` handler
(lines 491-508): `queued` defaults to false, `noBlockDueDate` to 31
days (2678400000 ms) past now when the property is absent, and
`transactionDate` to now.
-/
def preprocessCheckout (now : Nat) (d : CheckoutData) : CheckoutData :=
  { d with queued := some (d.queued.getD false)
           noBlockDueDate := some (d.noBlockDueDate.getD (now + 2678400000))
           transactionDate := some (orDefaultNat d.transactionDate now) }

/-- The preprocessing at the top of the `fbs.checkin` handler
(lines 586-590): `queued` defaults to false and `checkedInDate` to
now. -/
def preprocessCheckin (now : Nat) (d : CheckinData) : CheckinData :=
  { d with queued := some (d.queued.getD false)
           checkedInDate := some (orDefaultNat d.checkedInDate now) }

/-- The `itemProperties` object inside a provisional offline result. -/
structure ItemProperties where
  id : String
  title : String
deriving DecidableEq

/-- The provisional offline result payload (`material`). -/
structure Material where
  itemIdentifier : String
  offline : Bool
  ok : String
  itemProperties : ItemProperties
  dueDate : Option Nat := none
deriving DecidableEq

/-- The `obj` field of a `storage.append` request. -/
structure StorageRecord where
  date : Option Nat
  action : String
  username : Option String
  password : Option String
  itemIdentifier : String
deriving DecidableEq

/-- A `storage.append` bus request. -/
structure AppendRequest where
  type : String
  name : Option String
  obj : StorageRecord
  lockFile : Bool
  busEvent : String
  errorEvent : String
deriving DecidableEq

/-- The bus actions performed by the checkout and check-in handlers. -/
inductive BusAction
  | subscribeOnce (eventName : String)
  | appendRequest (r : AppendRequest)
  | enqueueCheckout (file : String)
  | enqueueCheckin (file : Option String)
  | emitSuccess (eventName : String) (result : Material)
  | emitError (eventName : String) (message : String)
deriving DecidableEq

/-- Whether a bus action is a provisional-success delivery. -/
def isEmitSuccess : BusAction → Bool
  | .emitSuccess _ _ => true
  | _ => false

/-! ## Offline fallback: correlation event names -/

/-- Correlation event-name pair for the checkout offline fallback,
derived from the item identifier (lines 538, 545, 562-563). -/
def checkoutOfflinePair (itemIdentifier : String) : String × String :=
  ("fbs.checkout.offline.stored" ++ itemIdentifier,
   "fbs.checkout.offline.error" ++ itemIdentifier)

/-- Correlation event-name pair for the check-in offline fallback,
derived from the item identifier (lines 622, 629, 644-645). -/
def checkinOfflinePair (itemIdentifier : String) : String × String :=
  ("fbs.checkin.offline.stored" ++ itemIdentifier,
   "fbs.checkin.offline.error" ++ itemIdentifier)

/-- Correlation event-name pair generated by `FBS.create` from a fresh
`uniqid` value (lines 49-50). -/
def createConfigPair (uid : String) : String × String :=
  ("fbs.config.loaded" ++ uid, "fbs.config.error" ++ uid)

/-! ## Offline fallback: the error branches of the two handlers -/

/-- The provisional checkout result (lines 527-536), carrying the
defaulted no-block due date. -/
def checkoutMaterial (d : CheckoutData) : Material :=
  { itemIdentifier := d.itemIdentifier
    offline := true
    ok := "1"
    itemProperties := { id := d.itemIdentifier, title := "fbs.offline.title" }
    dueDate := d.noBlockDueDate }

/-- The `storage.append` request of the checkout fallback
(lines 550-564): file key is the username, the record stores
`data.checkedInDate` in its `date` field, and the lock is requested. -/
def checkoutAppendRequest (d : CheckoutData) : AppendRequest :=
  { type := "offline"
    name := some d.username
    obj := { date := d.checkedInDate
             action := "checkout"
             username := some d.username
             password := some d.password
             itemIdentifier := d.itemIdentifier }
    lockFile := true
    busEvent := (checkoutOfflinePair d.itemIdentifier).1
    errorEvent := (checkoutOfflinePair d.itemIdentifier).2 }

/-- The provisional check-in result (lines 612-620); no due date. -/
def checkinMaterial (d : CheckinData) : Material :=
  { itemIdentifier := d.itemIdentifier
    offline := true
    ok := "1"
    itemProperties := { id := d.itemIdentifier, title := "fbs.offline.title" }
    dueDate := none }

/-- The `storage.append` request of the check-in fallback
(lines 634-646): file key is `data.transaction`, the record stores the
checked-in date, and the lock is requested. -/
def checkinAppendRequest (d : CheckinData) : AppendRequest :=
  { type := "offline"
    name := d.transaction
    obj := { date := d.checkedInDate
             action := "checkin"
             username := none
             password := none
             itemIdentifier := d.itemIdentifier }
    lockFile := true
    busEvent := (checkinOfflinePair d.itemIdentifier).1
    errorEvent := (checkinOfflinePair d.itemIdentifier).2 }

/--
The error callback of the `fbs.checkout` handler (lines 525-573),
applied to the preprocessed payload: when the failure is
`FBS is offline` and the request is not a replay, it subscribes the two
one-shot correlation handlers, issues the durable append and
immediately emits the reconciliation-queue job; otherwise it emits the
original failure on the error event of the caller.
-/
def checkoutOnError (d : CheckoutData) (err : FbsError) : List BusAction :=
  if err.message = "FBS is offline" ∧ d.queued = some false then
    [ BusAction.subscribeOnce (checkoutOfflinePair d.itemIdentifier).1,
      BusAction.subscribeOnce (checkoutOfflinePair d.itemIdentifier).2,
      BusAction.appendRequest (checkoutAppendRequest d),
      BusAction.enqueueCheckout d.username ]
  else
    [ BusAction.emitError d.errorEvent err.message ]

/-- The error callback of the `fbs.checkin` handler (lines 610-655). -/
def checkinOnError (d : CheckinData) (err : FbsError) : List BusAction :=
  if err.message = "FBS is offline" ∧ d.queued = some false then
    [ BusAction.subscribeOnce (checkinOfflinePair d.itemIdentifier).1,
      BusAction.subscribeOnce (checkinOfflinePair d.itemIdentifier).2,
      BusAction.appendRequest (checkinAppendRequest d),
      BusAction.enqueueCheckin d.transaction ]
  else
    [ BusAction.emitError d.errorEvent err.message ]

/-- The full checkout error path: preprocessing then the error
callback. -/
def checkoutHandlerOnError (now : Nat) (d : CheckoutData) (err : FbsError) : List BusAction :=
  checkoutOnError (preprocessCheckout now d) err

/-- The full check-in error path: preprocessing then the error
callback. -/
def checkinHandlerOnError (now : Nat) (d : CheckinData) (err : FbsError) : List BusAction :=
  checkinOnError (preprocessCheckin now d) err

/-- Outcome of the external durable append: the store emits the
`busEvent` of the request on success and its `errorEvent` with a
persistence failure otherwise (external collaborator contract). -/
inductive AppendOutcome
  | stored
  | failed (message : String)
deriving DecidableEq

/--
The complete action trace of the checkout error path, including the
later firing of whichever one-shot correlation handler the store
triggers: the handler for the stored event re-emits the provisional
result on the caller success event (lines 538-543) and the handler for
the append error re-emits the failure on the caller error event
(lines 545-547).  The append is asynchronous, so the delivery follows
every synchronous action of the handler.
-/
def checkoutFallbackRun (now : Nat) (d0 : CheckoutData) (err : FbsError)
    (ar : AppendOutcome) : List BusAction :=
  let d := preprocessCheckout now d0
  checkoutOnError d err ++
    (if err.message = "FBS is offline" ∧ d.queued = some false then
      match ar with
      | .stored => [BusAction.emitSuccess d.busEvent (checkoutMaterial d)]
      | .failed m => [BusAction.emitError d.errorEvent m]
    else [])

/-- The complete action trace of the check-in error path
(lines 622-631 for the two one-shot delivery handlers). -/
def checkinFallbackRun (now : Nat) (d0 : CheckinData) (err : FbsError)
    (ar : AppendOutcome) : List BusAction :=
  let d := preprocessCheckin now d0
  checkinOnError d err ++
    (if err.message = "FBS is offline" ∧ d.queued = some false then
      match ar with
      | .stored => [BusAction.emitSuccess d.busEvent (checkinMaterial d)]
      | .failed m => [BusAction.emitError d.errorEvent m]
    else [])

/-- Error arm of the `fbs.renew` handler (lines 676-678): the failure
is always propagated unchanged. -/
def renewOnError (errorEvent : String) (err : FbsError) : List BusAction :=
  [BusAction.emitError errorEvent err.message]

/-- Error arm of the `fbs.renew.all` handler (lines 697-699). -/
def renewAllOnError (errorEvent : String) (err : FbsError) : List BusAction :=
  [BusAction.emitError errorEvent err.message]

/-- Error arm of the `fbs.block` handler (lines 718-720). -/
def blockOnError (errorEvent : String) (err : FbsError) : List BusAction :=
  [BusAction.emitError errorEvent err.message]

/-- Error arm of the `fbs.patron` handler (lines 477-479). -/
def patronOnError (errorEvent : String) (err : FbsError) : List BusAction :=
  [BusAction.emitError errorEvent err.message]

/-- Error arm of the `fbs.login` handler (lines 434-436). -/
def loginOnError (errorEvent : String) (err : FbsError) : List BusAction :=
  [BusAction.emitError errorEvent err.message]

/-- Error arm of the `fbs.library.status` handler (lines 456-458). -/
def libraryStatusOnError (errorEvent : String) (err : FbsError) : List BusAction :=
  [BusAction.emitError errorEvent err.message]

/-! ## Sample request payloads used in closed instances -/

/-- A checkout request with no optional fields, as the kiosk sends it. -/
def sampleCheckout : CheckoutData :=
  { username := "patron1"
    password := "pw1"
    itemIdentifier := "item1"
    busEvent := "request.ok"
    errorEvent := "request.err" }

/-- A check-in request carrying a transaction identifier. -/
def sampleCheckin : CheckinData :=
  { itemIdentifier := "item2"
    transaction := some "trans9"
    busEvent := "request2.ok"
    errorEvent := "request2.err" }

/-! ## Claim C1 -/

/--
C1 counterexample: a checkout failing with `FBS is offline` and
`queued = false` whose durable append fails still has the
reconciliation job emitted in its action trace — the job is enqueued
synchronously, not only after the append has confirmed success — while
no provisional success is delivered and the persistence error reaches
the caller error event.
-/
theorem c1_counterexample :
    BusAction.enqueueCheckout "patron1" ∈
      checkoutFallbackRun 1000 sampleCheckout ⟨"FBS is offline"⟩
        (AppendOutcome.failed "disk full") ∧
    (checkoutFallbackRun 1000 sampleCheckout ⟨"FBS is offline"⟩
        (AppendOutcome.failed "disk full")).filter isEmitSuccess = [] ∧
    BusAction.emitError "request.err" "disk full" ∈
      checkoutFallbackRun 1000 sampleCheckout ⟨"FBS is offline"⟩
        (AppendOutcome.failed "disk full") := by
  decide

/--
C1 (amended) as a predicate over a checkout request, a check-in
request and the failure: the provisional success is the last action of
the trace and only appears when the append confirmed, the append
request precedes it, a failed append delivers the persistence error
with no provisional success ever emitted, and the reconciliation job
appears exactly once in the trace regardless of the append outcome —
in particular it is emitted before the append outcome is known.
-/
def C1FallbackContract (now : Nat) (d0 : CheckoutData) (dc0 : CheckinData)
    (err : FbsError) : Prop :=
  (∃ pre, checkoutFallbackRun now d0 err AppendOutcome.stored =
      pre ++ [BusAction.emitSuccess (preprocessCheckout now d0).busEvent
        (checkoutMaterial (preprocessCheckout now d0))] ∧
      BusAction.appendRequest (checkoutAppendRequest (preprocessCheckout now d0)) ∈ pre ∧
      pre.filter isEmitSuccess = []) ∧
  (∀ m, ∃ pre, checkoutFallbackRun now d0 err (AppendOutcome.failed m) =
      pre ++ [BusAction.emitError (preprocessCheckout now d0).errorEvent m] ∧
      pre.filter isEmitSuccess = []) ∧
  (∀ ar, (checkoutFallbackRun now d0 err ar).count
      (BusAction.enqueueCheckout (preprocessCheckout now d0).username) = 1) ∧
  (∃ pre, checkinFallbackRun now dc0 err AppendOutcome.stored =
      pre ++ [BusAction.emitSuccess (preprocessCheckin now dc0).busEvent
        (checkinMaterial (preprocessCheckin now dc0))] ∧
      BusAction.appendRequest (checkinAppendRequest (preprocessCheckin now dc0)) ∈ pre ∧
      pre.filter isEmitSuccess = []) ∧
  (∀ m, ∃ pre, checkinFallbackRun now dc0 err (AppendOutcome.failed m) =
      pre ++ [BusAction.emitError (preprocessCheckin now dc0).errorEvent m] ∧
      pre.filter isEmitSuccess = []) ∧
  (∀ ar, (checkinFallbackRun now dc0 err ar).count
      (BusAction.enqueueCheckin (preprocessCheckin now dc0).transaction) = 1)

/--
C1 (amended): for every checkout and check-in request failing with the
back-end-unavailable cause and not itself a replay, the fallback
contract holds: the provisional success is delivered only after (and
if) the durable append confirms, a failed append surfaces the
persistence error with no provisional success, and the reconciliation
job is enqueued exactly once — synchronously, before the append
outcome is known, not gated on its success.
-/
theorem c1_amended (now : Nat) (d0 : CheckoutData) (dc0 : CheckinData) (err : FbsError)
    (h1 : err.message = "FBS is offline")
    (h2 : d0.queued.getD false = false)
    (h3 : dc0.queued.getD false = false) :
    C1FallbackContract now d0 dc0 err := by
  have hq : (preprocessCheckout now d0).queued = some false := by
    simp [preprocessCheckout, h2]
  have hqc : (preprocessCheckin now dc0).queued = some false := by
    simp [preprocessCheckin, h3]
  have hcond : err.message = "FBS is offline" ∧
      (preprocessCheckout now d0).queued = some false := ⟨h1, hq⟩
  have hcondc : err.message = "FBS is offline" ∧
      (preprocessCheckin now dc0).queued = some false := ⟨h1, hqc⟩
  refine ⟨?_, ?_, ?_, ?_, ?_, ?_⟩
  · refine ⟨checkoutOnError (preprocessCheckout now d0) err, ?_, ?_, ?_⟩
    · simp [checkoutFallbackRun, hcond]
    · simp [checkoutOnError, hcond]
    · simp [checkoutOnError, hcond, isEmitSuccess]
  · intro m
    refine ⟨checkoutOnError (preprocessCheckout now d0) err, ?_, ?_⟩
    · simp [checkoutFallbackRun, hcond]
    · simp [checkoutOnError, hcond, isEmitSuccess]
  · intro ar
    cases ar <;>
      simp [checkoutFallbackRun, checkoutOnError, hcond, List.count_append,
        List.count_cons, List.count_nil]
  · refine ⟨checkinOnError (preprocessCheckin now dc0) err, ?_, ?_, ?_⟩
    · simp [checkinFallbackRun, hcondc]
    · simp [checkinOnError, hcondc]
    · simp [checkinOnError, hcondc, isEmitSuccess]
  · intro m
    refine ⟨checkinOnError (preprocessCheckin now dc0) err, ?_, ?_⟩
    · simp [checkinFallbackRun, hcondc]
    · simp [checkinOnError, hcondc, isEmitSuccess]
  · intro ar
    cases ar <;>
      simp [checkinFallbackRun, checkinOnError, hcondc, List.count_append,
        List.count_cons, List.count_nil]

/-- C1 witness: the amended fallback contract on concrete requests. -/
theorem c1_amended_witness :
    C1FallbackContract 1000 sampleCheckout sampleCheckin ⟨"FBS is offline"⟩ :=
  c1_amended 1000 sampleCheckout sampleCheckin ⟨"FBS is offline"⟩ rfl rfl rfl

/-! ## Claim C4 -/

/--
C4: a checkout or check-in failing for any cause other than
`FBS is offline`, or arriving with `queued = true`, has its failure
propagated unchanged to the caller error event with no durable append
request and no reconciliation job; and the error arms of every other
bus handler (renew, renew-all, block, patron, login, library status)
only ever propagate the failure, so the fallback exists only for
checkout and check-in.
-/
theorem c4_no_fallback_on_other_failures (now : Nat) (d : CheckoutData)
    (dc : CheckinData) (err : FbsError)
    (hco : err.message ≠ "FBS is offline" ∨ d.queued = some true)
    (hci : err.message ≠ "FBS is offline" ∨ dc.queued = some true) :
    checkoutHandlerOnError now d err = [BusAction.emitError d.errorEvent err.message] ∧
    checkinHandlerOnError now dc err = [BusAction.emitError dc.errorEvent err.message] ∧
    (∀ (e : String) (f : FbsError),
      renewOnError e f = [BusAction.emitError e f.message] ∧
      renewAllOnError e f = [BusAction.emitError e f.message] ∧
      blockOnError e f = [BusAction.emitError e f.message] ∧
      patronOnError e f = [BusAction.emitError e f.message] ∧
      loginOnError e f = [BusAction.emitError e f.message] ∧
      libraryStatusOnError e f = [BusAction.emitError e f.message]) := by
  have hcond : ¬ (err.message = "FBS is offline" ∧
      (preprocessCheckout now d).queued = some false) := by
    rcases hco with h | h
    · exact fun hc => h hc.1
    · intro hc
      have hval : (preprocessCheckout now d).queued = some true := by
        simp [preprocessCheckout, h]
      rw [hval] at hc
      simp at hc
  have hcondc : ¬ (err.message = "FBS is offline" ∧
      (preprocessCheckin now dc).queued = some false) := by
    rcases hci with h | h
    · exact fun hc => h hc.1
    · intro hc
      have hval : (preprocessCheckin now dc).queued = some true := by
        simp [preprocessCheckin, h]
      rw [hval] at hc
      simp at hc
  refine ⟨?_, ?_, ?_⟩
  · unfold checkoutHandlerOnError checkoutOnError
    rw [if_neg hcond]
    simp [preprocessCheckout]
  · unfold checkinHandlerOnError checkinOnError
    rw [if_neg hcondc]
    simp [preprocessCheckin]
  · intro e f
    exact ⟨rfl, rfl, rfl, rfl, rfl, rfl⟩

/-- C4 witness: a checkout and a check-in failing with the invalid
login business cause propagate exactly that failure. -/
theorem c4_witness :
    checkoutHandlerOnError 1000 sampleCheckout ⟨"login.invalid_login_error"⟩ =
      [BusAction.emitError "request.err" "login.invalid_login_error"] ∧
    checkinHandlerOnError 1000 sampleCheckin ⟨"login.invalid_login_error"⟩ =
      [BusAction.emitError "request2.err" "login.invalid_login_error"] ∧
    (∀ (e : String) (f : FbsError),
      renewOnError e f = [BusAction.emitError e f.message] ∧
      renewAllOnError e f = [BusAction.emitError e f.message] ∧
      blockOnError e f = [BusAction.emitError e f.message] ∧
      patronOnError e f = [BusAction.emitError e f.message] ∧
      loginOnError e f = [BusAction.emitError e f.message] ∧
      libraryStatusOnError e f = [BusAction.emitError e f.message]) :=
  c4_no_fallback_on_other_failures 1000 sampleCheckout sampleCheckin
    ⟨"login.invalid_login_error"⟩ (Or.inl (by decide)) (Or.inl (by decide))

/-! ## Claim C6 -/

/-- Left cancellation for string concatenation. -/
theorem string_append_left_cancel {p a b : String} (h : p ++ a = p ++ b) : a = b := by
  have hd : (p ++ a).data = (p ++ b).data := congrArg String.data h
  rw [String.data_append, String.data_append] at hd
  exact String.ext (List.append_cancel_left hd)

/-- Two distinct concurrent offline-fallback checkouts sharing one
item identifier. -/
def sameItemCallA : CheckoutData :=
  { username := "alice"
    password := "pa"
    itemIdentifier := "bookX"
    busEvent := "callA.ok"
    errorEvent := "callA.err" }

/-- Second concurrent checkout of the same item by another patron. -/
def sameItemCallB : CheckoutData :=
  { username := "bob"
    password := "pb"
    itemIdentifier := "bookX"
    busEvent := "callB.ok"
    errorEvent := "callB.err" }

/--
C6 counterexample: two distinct concurrent offline-fallback checkouts
of the same item generate identical success/error correlation
event-name pairs — the names are derived from the item identifier, not
generated per call — so the pairs are not unique per call.
-/
theorem c6_counterexample :
    sameItemCallA ≠ sameItemCallB ∧
    checkoutOfflinePair sameItemCallA.itemIdentifier =
      checkoutOfflinePair sameItemCallB.itemIdentifier ∧
    (checkoutAppendRequest (preprocessCheckout 1000 sameItemCallA)).busEvent =
      (checkoutAppendRequest (preprocessCheckout 1000 sameItemCallB)).busEvent := by
  decide

/--
C6 (amended): the `FBS.create` correlation pairs are distinct whenever
the generated `uniqid` values are distinct, and the offline-fallback
pairs of one operation are distinct only between calls with distinct
item identifiers — two concurrent offline fallbacks of the same
operation on the same item share a pair.
-/
theorem c6_amended (a b u v : String) (hab : a ≠ b) (huv : u ≠ v) :
    checkoutOfflinePair a ≠ checkoutOfflinePair b ∧
    checkinOfflinePair a ≠ checkinOfflinePair b ∧
    createConfigPair u ≠ createConfigPair v := by
  refine ⟨?_, ?_, ?_⟩
  · intro h
    exact hab (string_append_left_cancel (congrArg Prod.fst h))
  · intro h
    exact hab (string_append_left_cancel (congrArg Prod.fst h))
  · intro h
    exact huv (string_append_left_cancel (congrArg Prod.fst h))

/-- C6 witness: distinct items and distinct uniqid values yield
distinct correlation pairs. -/
theorem c6_amended_witness :
    checkoutOfflinePair "bookX" ≠ checkoutOfflinePair "bookY" ∧
    checkinOfflinePair "bookX" ≠ checkinOfflinePair "bookY" ∧
    createConfigPair "uid1" ≠ createConfigPair "uid2" :=
  c6_amended "bookX" "bookY" "uid1" "uid2" (by decide) (by decide)

/-! ## Claim C8 -/

/-- A checkout request as sent by the kiosk: it carries a transaction
date but never a checked-in date. -/
def c8Checkout : CheckoutData :=
  { username := "patron9"
    password := "pw9"
    itemIdentifier := "book9"
    transactionDate := some 1111
    busEvent := "co.ok"
    errorEvent := "co.err" }

/-- A check-in request with its checked-in date and transaction
identifier. -/
def c8Checkin : CheckinData :=
  { itemIdentifier := "book7"
    checkedInDate := some 2222
    transaction := some "trans7"
    busEvent := "ci.ok"
    errorEvent := "ci.err" }

/--
C8: the durable checkout record does carry the action kind, the
credentials, the item identifier, the patron-derived file key and the
lock request, and the check-in record carries the action kind, item,
checked-in timestamp, transaction-derived file key and lock request —
but the checkout record stores `data.checkedInDate` in its `date`
field, which is absent on checkout requests, so the timestamp of the
attempted transaction (`transactionDate = 1111`) is not recorded.
-/
theorem c8_checkout_record_date_lost :
    (checkoutAppendRequest (preprocessCheckout 5000 c8Checkout)).obj.date = none ∧
    (preprocessCheckout 5000 c8Checkout).transactionDate = some 1111 ∧
    (checkoutAppendRequest (preprocessCheckout 5000 c8Checkout)).obj.action = "checkout" ∧
    (checkoutAppendRequest (preprocessCheckout 5000 c8Checkout)).obj.username
      = some "patron9" ∧
    (checkoutAppendRequest (preprocessCheckout 5000 c8Checkout)).obj.password
      = some "pw9" ∧
    (checkoutAppendRequest (preprocessCheckout 5000 c8Checkout)).obj.itemIdentifier
      = "book9" ∧
    (checkoutAppendRequest (preprocessCheckout 5000 c8Checkout)).name = some "patron9" ∧
    (checkoutAppendRequest (preprocessCheckout 5000 c8Checkout)).lockFile = true ∧
    (checkinAppendRequest (preprocessCheckin 5000 c8Checkin)).obj.date = some 2222 ∧
    (checkinAppendRequest (preprocessCheckin 5000 c8Checkin)).obj.action = "checkin" ∧
    (checkinAppendRequest (preprocessCheckin 5000 c8Checkin)).obj.itemIdentifier
      = "book7" ∧
    (checkinAppendRequest (preprocessCheckin 5000 c8Checkin)).name = some "trans7" ∧
    (checkinAppendRequest (preprocessCheckin 5000 c8Checkin)).lockFile = true := by
  decide

/-! ## Facade observability emissions (claim C7) -/

/-- The `!!err` flag passed to `fbs.action.result`. -/
def outcomeFailed : Except FbsError α → Bool
  | .error _ => true
  | .ok _ => false

/--
`FBS.prototype.libraryStatus` (lines 71-84): the transport callback
resolves or rejects the promise and, unlike every other facade method,
emits no `fbs.action.result` event.
-/
def fbsLibraryStatus (outcome : Except FbsError LibraryStatusRes) :
    Except FbsError LibraryStatusRes × List (String × Bool) :=
  (outcome, [])

/-- The patron-status fields consulted by `FBS.prototype.login`. -/
structure PatronStatus where
  validPatron : String
  validPatronPassword : String
  chargePrivDenied : Bool
  renewalPrivDenied : Bool
  recallPrivDenied : Bool
  holdPrivDenied : Bool
deriving DecidableEq

/--
`FBS.prototype.login` (lines 97-126): a patron is valid when both
validity markers are the letter Y; a valid patron with all four
privileges denied is rejected as blocked; the observability event
`fbs.action.result` is emitted exactly once with the flag `!!err`,
which is false even when the login is rejected for business reasons.
-/
def fbsLogin (outcome : Except FbsError PatronStatus) :
    Except FbsError Unit × List (String × Bool) :=
  match outcome with
  | .error e => (Except.error e, [("Login", true)])
  | .ok res =>
      let valid := res.validPatron == "Y" && res.validPatronPassword == "Y"
      let result : Except FbsError Unit :=
        if valid then
          if res.chargePrivDenied && res.renewalPrivDenied &&
              res.recallPrivDenied && res.holdPrivDenied then
            Except.error ⟨"login.invalid_login_blocked"⟩
          else
            Except.ok ()
        else
          Except.error ⟨"login.invalid_login_error"⟩
      (result, [("Login", false)])

/-- `FBS.prototype.patronInformation` (lines 139-154): pass the outcome
through and emit one observability event. -/
def fbsPatronInformation (outcome : Except FbsError α) :
    Except FbsError α × List (String × Bool) :=
  (outcome, [("Patron Information", outcomeFailed outcome)])

/-- `FBS.prototype.checkout` (lines 175-190). -/
def fbsCheckout (outcome : Except FbsError α) :
    Except FbsError α × List (String × Bool) :=
  (outcome, [("Checkout", outcomeFailed outcome)])

/-- `FBS.prototype.checkIn` (lines 205-220). -/
def fbsCheckIn (outcome : Except FbsError α) :
    Except FbsError α × List (String × Bool) :=
  (outcome, [("Checkin", outcomeFailed outcome)])

/-- `FBS.prototype.renew` (lines 235-250). -/
def fbsRenew (outcome : Except FbsError α) :
    Except FbsError α × List (String × Bool) :=
  (outcome, [("Renew", outcomeFailed outcome)])

/-- `FBS.prototype.renewAll` (lines 263-278). -/
def fbsRenewAll (outcome : Except FbsError α) :
    Except FbsError α × List (String × Bool) :=
  (outcome, [("Renew All", outcomeFailed outcome)])

/-- `FBS.prototype.block` (lines 291-306). -/
def fbsBlock (outcome : Except FbsError α) :
    Except FbsError α × List (String × Bool) :=
  (outcome, [("Block", outcomeFailed outcome)])

/--
C7 counterexample: `libraryStatus` emits no `fbs.action.result` event,
on success as on failure, contrary to the claim that every facade
protocol call emits exactly one.
-/
theorem c7_counterexample :
    (fbsLibraryStatus (Except.ok ⟨true, true⟩)).2 = [] ∧
    (fbsLibraryStatus (Except.error ⟨"FBS is offline"⟩)).2 = [] := by
  exact ⟨rfl, rfl⟩

/--
C7 (amended): every facade protocol call except `libraryStatus` emits,
on success as on failure, exactly one `fbs.action.result` event
carrying its operation name and the boolean transport-failure flag,
and the returned result is the transport outcome itself, unaffected by
the emission; `libraryStatus` emits none.
-/
theorem c7_amended :
    (∀ o : Except FbsError PatronStatus,
      (fbsLogin o).2 = [("Login", outcomeFailed o)]) ∧
    (∀ (α : Type) (o : Except FbsError α),
      (fbsPatronInformation o).2 = [("Patron Information", outcomeFailed o)] ∧
      (fbsCheckout o).2 = [("Checkout", outcomeFailed o)] ∧
      (fbsCheckIn o).2 = [("Checkin", outcomeFailed o)] ∧
      (fbsRenew o).2 = [("Renew", outcomeFailed o)] ∧
      (fbsRenewAll o).2 = [("Renew All", outcomeFailed o)] ∧
      (fbsBlock o).2 = [("Block", outcomeFailed o)] ∧
      (fbsPatronInformation o).1 = o ∧
      (fbsCheckout o).1 = o ∧
      (fbsCheckIn o).1 = o ∧
      (fbsRenew o).1 = o ∧
      (fbsRenewAll o).1 = o ∧
      (fbsBlock o).1 = o) ∧
    (∀ o : Except FbsError LibraryStatusRes,
      (fbsLibraryStatus o).2 = [] ∧ (fbsLibraryStatus o).1 = o) := by
  refine ⟨?_, ?_, ?_⟩
  · intro o
    cases o <;> rfl
  · intro α o
    cases o <;>
      exact ⟨rfl, rfl, rfl, rfl, rfl, rfl, rfl, rfl, rfl, rfl, rfl, rfl⟩
  · intro o
    exact ⟨rfl, rfl⟩

/-! ## Timer arming (claim C9) -/

/--
The timer bookkeeping of the health monitor: the lists hold the
identifiers of the armed (created and neither cancelled nor fired)
primary and watchdog timers, `pollVar` and `watchdogVar` hold the
current values of the module variables `checkOnlineStateTimeout` and
`ensureCheckOnlineStateTimeout`, `pending` counts outstanding
`FBS.create` continuations of poll cycles, and `fresh` supplies
identifiers.
-/
structure TimerState where
  armedPoll : List Nat
  armedWatchdog : List Nat
  pollVar : Option Nat
  watchdogVar : Option Nat
  pending : Nat
  fresh : Nat
deriving DecidableEq

/--
Scheduler events of the timer model: `enterViaWatchdog` and
`enterViaPoll` fire the corresponding armed timer and run the
synchronous entry of `checkOnlineState`; `resolveCont` completes one
outstanding poll continuation, which re-arms the primary timer by
plain assignment (`checkOnlineStateTimeout = setTimeout(...)`, any of
lines 370, 376, 382, 396, 407, 418) without clearing the previous
instance.  Events whose precondition fails leave the state unchanged.
-/
inductive TimerEvent
  | enterViaWatchdog
  | enterViaPoll
  | resolveCont
deriving DecidableEq

/-- Lines 349-352 of the entry of `checkOnlineState`: cancel the timer
held by `checkOnlineStateTimeout` and null the variable. -/
def clearPollTimer (s : TimerState) : TimerState :=
  match s.pollVar with
  | none => s
  | some p => { s with armedPoll := s.armedPoll.erase p, pollVar := none }

/-- Lines 341-346: cancel the timer held by
`ensureCheckOnlineStateTimeout` and arm a fresh watchdog. -/
def armWatchdog (s : TimerState) : TimerState :=
  let s1 :=
    match s.watchdogVar with
    | none => s
    | some w => { s with armedWatchdog := s.armedWatchdog.erase w }
  { s1 with armedWatchdog := s1.fresh :: s1.armedWatchdog
            watchdogVar := some s1.fresh
            fresh := s1.fresh + 1 }

/-- The synchronous entry of `checkOnlineState` (lines 339-355):
re-arm the watchdog, cancel the primary timer, start `FBS.create`. -/
def enterBody (s : TimerState) : TimerState :=
  let s1 := clearPollTimer (armWatchdog s)
  { s1 with pending := s1.pending + 1 }

/-- One scheduler event. -/
def timerStep (s : TimerState) : TimerEvent → TimerState
  | .enterViaWatchdog =>
      match s.watchdogVar with
      | some w =>
          if w ∈ s.armedWatchdog then
            enterBody { s with armedWatchdog := s.armedWatchdog.erase w }
          else s
      | none => s
  | .enterViaPoll =>
      match s.pollVar with
      | some p =>
          if p ∈ s.armedPoll then
            enterBody { s with armedPoll := s.armedPoll.erase p, pollVar := none }
          else s
      | none => s
  | .resolveCont =>
      if 0 < s.pending then
        { s with pending := s.pending - 1
                 armedPoll := s.fresh :: s.armedPoll
                 pollVar := some s.fresh
                 fresh := s.fresh + 1 }
      else s

/-- The state after the plugin registration calls `checkOnlineState()`
for the first time (line 733), from a state with no timers armed. -/
def timerInit : TimerState :=
  enterBody
    { armedPoll := [], armedWatchdog := [], pollVar := none, watchdogVar := none,
      pending := 0, fresh := 0 }

/-- Run a sequence of scheduler events from startup. -/
def runTimers (evs : List TimerEvent) : TimerState :=
  evs.foldl timerStep timerInit

/-- The watchdog invariant: at most one watchdog timer is armed and
the module variable refers to it. -/
def WatchdogInv (s : TimerState) : Prop :=
  s.armedWatchdog.length ≤ 1 ∧ ∀ w ∈ s.armedWatchdog, s.watchdogVar = some w

/-- `armWatchdog` leaves exactly the fresh watchdog armed whenever the
invariant held before. -/
theorem armWatchdog_resets (s : TimerState) (h : WatchdogInv s) :
    (armWatchdog s).armedWatchdog = [s.fresh] ∧
    (armWatchdog s).watchdogVar = some s.fresh := by
  obtain ⟨hlen, hvar⟩ := h
  cases hw : s.watchdogVar with
  | none =>
      have hnil : s.armedWatchdog = [] := by
        cases harm : s.armedWatchdog with
        | nil => rfl
        | cons a t =>
            have := hvar a (by rw [harm]; exact List.mem_cons_self a t)
            rw [hw] at this
            cases this
      simp [armWatchdog, hw, hnil]
  | some w =>
      cases harm : s.armedWatchdog with
      | nil => simp [armWatchdog, hw, harm]
      | cons a t =>
          have ha : s.watchdogVar = some a := hvar a (by rw [harm]; exact List.mem_cons_self a t)
          have haw : a = w := by rw [hw] at ha; injection ha with h; exact h.symm
          have ht : t = [] := by
            rw [harm] at hlen
            simp at hlen
            exact hlen
          subst haw
          subst ht
          simp [armWatchdog, hw, harm]

/-- Cancelling the primary timer does not touch the watchdog fields. -/
theorem clearPollTimer_watchdog (s : TimerState) :
    (clearPollTimer s).armedWatchdog = s.armedWatchdog ∧
    (clearPollTimer s).watchdogVar = s.watchdogVar := by
  cases hp : s.pollVar with
  | none => simp [clearPollTimer, hp]
  | some p => simp [clearPollTimer, hp]

/-- The watchdog fields after the synchronous entry are those set by
`armWatchdog`. -/
theorem enterBody_watchdog_fields (s : TimerState) :
    (enterBody s).armedWatchdog = (armWatchdog s).armedWatchdog ∧
    (enterBody s).watchdogVar = (armWatchdog s).watchdogVar := by
  have h := clearPollTimer_watchdog (armWatchdog s)
  exact ⟨h.1, h.2⟩

/-- The synchronous entry re-establishes the watchdog invariant. -/
theorem enterBody_watchdog_inv (s : TimerState) (h : WatchdogInv s) :
    WatchdogInv (enterBody s) := by
  have hr := armWatchdog_resets s h
  have hf := enterBody_watchdog_fields s
  constructor
  · rw [hf.1, hr.1]
    simp
  · intro w hw
    rw [hf.1, hr.1] at hw
    simp at hw
    rw [hf.2, hr.2, hw]

/-- Every scheduler event preserves the watchdog invariant. -/
theorem timerStep_watchdog_inv (s : TimerState) (e : TimerEvent) (h : WatchdogInv s) :
    WatchdogInv (timerStep s e) := by
  cases e with
  | enterViaWatchdog =>
      cases hw : s.watchdogVar with
      | none =>
          have heq : timerStep s TimerEvent.enterViaWatchdog = s := by
            simp [timerStep, hw]
          rw [heq]
          exact h
      | some w =>
          by_cases hmem : w ∈ s.armedWatchdog
          · have hpre : WatchdogInv { s with armedWatchdog := s.armedWatchdog.erase w } := by
              refine ⟨Nat.le_trans (List.erase_sublist w s.armedWatchdog).length_le h.1, ?_⟩
              intro x hx
              exact h.2 x (List.mem_of_mem_erase hx)
            have heq : timerStep s TimerEvent.enterViaWatchdog =
                enterBody { s with armedWatchdog := s.armedWatchdog.erase w } := by
              simp [timerStep, hw, hmem]
            rw [heq]
            exact enterBody_watchdog_inv _ hpre
          · have heq : timerStep s TimerEvent.enterViaWatchdog = s := by
              simp [timerStep, hw, hmem]
            rw [heq]
            exact h
  | enterViaPoll =>
      cases hp : s.pollVar with
      | none =>
          have heq : timerStep s TimerEvent.enterViaPoll = s := by
            simp [timerStep, hp]
          rw [heq]
          exact h
      | some p =>
          by_cases hmem : p ∈ s.armedPoll
          · have hpre : WatchdogInv { s with armedPoll := s.armedPoll.erase p, pollVar := none } :=
              ⟨h.1, h.2⟩
            have heq : timerStep s TimerEvent.enterViaPoll =
                enterBody { s with armedPoll := s.armedPoll.erase p, pollVar := none } := by
              simp [timerStep, hp, hmem]
            rw [heq]
            exact enterBody_watchdog_inv _ hpre
          · have heq : timerStep s TimerEvent.enterViaPoll = s := by
              simp [timerStep, hp, hmem]
            rw [heq]
            exact h
  | resolveCont =>
      by_cases hpend : 0 < s.pending
      · have heq : timerStep s TimerEvent.resolveCont =
            { s with pending := s.pending - 1
                     armedPoll := s.fresh :: s.armedPoll
                     pollVar := some s.fresh
                     fresh := s.fresh + 1 } := by
          simp [timerStep, hpend]
        rw [heq]
        exact ⟨h.1, h.2⟩
      · have heq : timerStep s TimerEvent.resolveCont = s := by
          simp [timerStep, hpend]
        rw [heq]
        exact h

/-- The watchdog invariant holds along every run from startup. -/
theorem runTimers_watchdog_inv (evs : List TimerEvent) :
    WatchdogInv (runTimers evs) := by
  have hgen : ∀ (l : List TimerEvent) (s : TimerState),
      WatchdogInv s → WatchdogInv (l.foldl timerStep s) := by
    intro l
    induction l with
    | nil => intro s h; exact h
    | cons e rest ih =>
        intro s h
        exact ih (timerStep s e) (timerStep_watchdog_inv s e h)
  have hinit : WatchdogInv timerInit := by
    constructor
    · decide
    · intro w hw
      have : w = 0 := by
        simpa [timerInit, enterBody, armWatchdog, clearPollTimer] using hw
      simp [timerInit, enterBody, armWatchdog, clearPollTimer, this]
  exact hgen evs timerInit hinit

/--
C9 counterexample: when the watchdog fires while the previous poll
cycle is still awaiting its `FBS.create` continuation, the two
continuations each re-arm the primary timer by plain assignment, so
after the trace watchdog-fire, resolve, resolve two primary poll
timers are armed at once and the first of them was never cancelled.
-/
theorem c9_counterexample :
    (runTimers [TimerEvent.enterViaWatchdog, TimerEvent.resolveCont,
      TimerEvent.resolveCont]).armedPoll.length = 2 ∧
    2 ∈ (runTimers [TimerEvent.enterViaWatchdog, TimerEvent.resolveCont,
      TimerEvent.resolveCont]).armedPoll ∧
    (runTimers [TimerEvent.enterViaWatchdog, TimerEvent.resolveCont,
      TimerEvent.resolveCont]).pollVar = some 3 := by
  decide

/--
C9 (amended): along every scheduler trace from startup at most one
watchdog timer is armed, and the synchronous entry of
`checkOnlineState` always cancels the primary timer held by its module
variable; but a poll continuation re-arms the primary timer without
cancelling, so the at-most-one property fails for the primary timer
when the watchdog fires while a continuation is pending.
-/
theorem c9_amended :
    (∀ evs : List TimerEvent, (runTimers evs).armedWatchdog.length ≤ 1) ∧
    (∀ s : TimerState, (enterBody s).pollVar = none) ∧
    (∀ s : TimerState,
      (enterBody s).armedPoll =
        (match (armWatchdog s).pollVar with
          | some p => (armWatchdog s).armedPoll.erase p
          | none => (armWatchdog s).armedPoll)) := by
  refine ⟨?_, ?_, ?_⟩
  · intro evs
    exact (runTimers_watchdog_inv evs).1
  · intro s
    cases hp : (armWatchdog s).pollVar with
    | none => simp [enterBody, clearPollTimer, hp]
    | some p => simp [enterBody, clearPollTimer, hp]
  · intro s
    cases hp : (armWatchdog s).pollVar with
    | none => simp [enterBody, clearPollTimer, hp]
    | some p => simp [enterBody, clearPollTimer, hp]

end FbsPlugin
